import Mathlib

/-!
Verification of the Fusefy claims-management system against its
natural-language specification.

The TypeScript sources embedded here are the frontend validation schemas
(zod), the utility helpers, and the API retry wrapper.  The backend
lifecycle engine is not part of the source tree; where a property is
decided by that missing component, the corresponding definition is
modelled from the specification and marked as such in its doc comment.
-/

namespace Fusefy

/-- The `ClaimStatus` enum from `src/frontend/src/types/index.ts`. -/
inductive ClaimStatus where
  | RECEIVED
  | OCR_PROCESSING
  | PII_MASKED
  | DQ_VALIDATED
  | HUMAN_REVIEW
  | CONSENT_VERIFIED
  | CLAIM_VALIDATED
  | PAYER_SUBMITTED
  | SETTLED
  | REJECTED
  deriving DecidableEq, Repr

/-- The `ClaimType` enum from `src/frontend/src/types/index.ts`. -/
inductive ClaimType where
  | MEDICAL
  | DENTAL
  | VISION
  | PHARMACY
  deriving DecidableEq, Repr

/-- Modelled from the spec: events consumed by the Lifecycle Engine
(section 4.1).  The engine itself is not under `src/`; only the
`ClaimStatus` enumeration and its UI consumers are. -/
inductive ClaimEvent where
  | DocumentAttached
  | ExtractionCompleted (overall_confidence : ℚ)
  | DqPassed
  | RouteOnConfidence (overall_confidence : ℚ) (mandatoryReview : Bool)
  | ReviewerDecision (approve : Bool)
  | ClaimValidationPassed
  | PayerSubmissionCompleted
  | SettlementCompleted
  | RejectionEvent
  deriving DecidableEq, Repr

/-- Modelled from the spec: the error taxonomy entry for an event that is
not valid from the current state (sections 4.1 and 7). -/
inductive AdvanceError where
  | InvalidTransition
  deriving DecidableEq, Repr

/-- Modelled from the spec: the confidence routing out of `DQ_VALIDATED`
(section 4.1): to `HUMAN_REVIEW` iff `overall_confidence < review_threshold`
or a mandatory-review rule fires, otherwise to `CONSENT_VERIFIED`. -/
def routeFromDqValidated (review_threshold overall_confidence : ℚ)
    (mandatoryReview : Bool) : ClaimStatus :=
  if overall_confidence < review_threshold ∨ mandatoryReview = true then
    ClaimStatus.HUMAN_REVIEW
  else
    ClaimStatus.CONSENT_VERIFIED

/-- Modelled from the spec: the Lifecycle Engine transition function of
section 4.1.  `REJECTED` and `SETTLED` accept no further transitions;
an event for a transition not defined from the current state is rejected
with `InvalidTransition`. -/
def advance (review_threshold : ℚ) (s : ClaimStatus) (e : ClaimEvent) :
    Except AdvanceError ClaimStatus :=
  match s, e with
  | ClaimStatus.RECEIVED, ClaimEvent.DocumentAttached =>
      Except.ok ClaimStatus.OCR_PROCESSING
  | ClaimStatus.OCR_PROCESSING, ClaimEvent.ExtractionCompleted _ =>
      Except.ok ClaimStatus.PII_MASKED
  | ClaimStatus.PII_MASKED, ClaimEvent.DqPassed =>
      Except.ok ClaimStatus.DQ_VALIDATED
  | ClaimStatus.DQ_VALIDATED, ClaimEvent.RouteOnConfidence conf mand =>
      Except.ok (routeFromDqValidated review_threshold conf mand)
  | ClaimStatus.HUMAN_REVIEW, ClaimEvent.ReviewerDecision true =>
      Except.ok ClaimStatus.CONSENT_VERIFIED
  | ClaimStatus.HUMAN_REVIEW, ClaimEvent.ReviewerDecision false =>
      Except.ok ClaimStatus.REJECTED
  | ClaimStatus.CONSENT_VERIFIED, ClaimEvent.ClaimValidationPassed =>
      Except.ok ClaimStatus.CLAIM_VALIDATED
  | ClaimStatus.CLAIM_VALIDATED, ClaimEvent.PayerSubmissionCompleted =>
      Except.ok ClaimStatus.PAYER_SUBMITTED
  | ClaimStatus.PAYER_SUBMITTED, ClaimEvent.SettlementCompleted =>
      Except.ok ClaimStatus.SETTLED
  | ClaimStatus.SETTLED, ClaimEvent.RejectionEvent =>
      Except.error AdvanceError.InvalidTransition
  | ClaimStatus.REJECTED, ClaimEvent.RejectionEvent =>
      Except.error AdvanceError.InvalidTransition
  | _, ClaimEvent.RejectionEvent =>
      Except.ok ClaimStatus.REJECTED
  | _, _ => Except.error AdvanceError.InvalidTransition

/-- Modelled from the spec: the status a claim holds after an `Advance`
attempt — a rejected event leaves the claim unchanged (section 8). -/
def applyEvent (review_threshold : ℚ) (s : ClaimStatus) (e : ClaimEvent) :
    ClaimStatus :=
  match advance review_threshold s e with
  | Except.ok s2 => s2
  | Except.error _ => s

/-- An error thrown by a request, as inspected by `retryRequest` in
`src/frontend/src/pages/Dashboard.tsx` (API service module): an
`AxiosError` carries an optional `error.response?.status`; any other
thrown value carries none. -/
inductive JsError where
  | axios (status : Option Nat)
  | other
  deriving DecidableEq, Repr

/-- The client-error test of `retryRequest`:
`error instanceof AxiosError && error.response?.status && error.response.status < 500`.
A status of 0 is falsy in JavaScript, hence not a client error. -/
def isClientError : JsError → Bool
  | JsError.axios (some s) => decide (s ≠ 0) && decide (s < 500)
  | _ => false

/-- The backoff wait of `retryRequest`: `delay * Math.pow(2, attempt - 1)`. -/
def backoffDelay (delay attempt : Nat) : Nat := delay * 2 ^ (attempt - 1)

/-- The loop body of `retryRequest` from `src/frontend/src/pages/Dashboard.tsx`
(API service module), starting at attempt number `attempt` with `fuel`
further attempts allowed after the current one (so `fuel = maxRetries -
attempt`).  The request function is modelled as a map from attempt number
to outcome.  Returns the surfaced outcome, the number of invocations of
the request function, and the list of backoff waits performed. -/
def retryAux {T : Type} (f : Nat → Except JsError T) (delay attempt : Nat) :
    Nat → Except JsError T × Nat × List Nat
  | 0 =>
    -- last allowed attempt: on any error the loop ends and `lastError` —
    -- which is this very error — is thrown, whether or not it is a 4xx
    match f attempt with
    | Except.ok v => (Except.ok v, 1, [])
    | Except.error e => (Except.error e, 1, [])
  | fuel' + 1 =>
    match f attempt with
    | Except.ok v => (Except.ok v, 1, [])
    | Except.error e =>
      if isClientError e then (Except.error e, 1, [])
      else
        let r := retryAux f delay (attempt + 1) fuel'
        (r.1, r.2.1 + 1, backoffDelay delay attempt :: r.2.2)

/-- Function `retryRequest(requestFn, maxRetries = 3, delay = 1000)` from
`src/frontend/src/pages/Dashboard.tsx` (API service module): runs the loop
`for (attempt = 1; attempt <= maxRetries; attempt++)`, so it starts at
attempt 1 with `maxRetries - 1` retries remaining (the model covers
`maxRetries >= 1`; with `maxRetries = 0` the JavaScript loop body never
runs and the function throws an undefined `lastError`). -/
def retryRequest {T : Type} (f : Nat → Except JsError T)
    (maxRetries delay : Nat) : Except JsError T × Nat × List Nat :=
  retryAux f delay 1 (maxRetries - 1)

/-- JavaScript `Math.round`: rounds to the nearest integer, halves toward
positive infinity. -/
def jsMathRound (q : ℚ) : ℤ := ⌊q + 1/2⌋

/-- Function `formatConfidence` from the utils module (`src/unnamed/part_000`):
the string shown is `` `${Math.round(confidence * 100)}%` ``; the model
returns the percentage number that is rendered before the percent sign. -/
def formatConfidence (confidence : ℚ) : ℤ := jsMathRound (confidence * 100)

/-- Function `getConfidenceColor` from the utils module (`src/unnamed/part_000`). -/
def getConfidenceColor (confidence : ℚ) : String :=
  if (80/100 : ℚ) ≤ confidence then ("text-green-600")
  else if (60/100 : ℚ) ≤ confidence then ("text-yellow-600")
  else ("text-red-600")

/-- The `claim_amount` checks of `claimValidationSchema`
(`src/unnamed/part_000`): `.positive()`, `.min(0.01)`, `.max(1000000)`,
and the refinement `Number(amount.toFixed(2)) === amount`, which holds
exactly when the amount is representable with at most 2 fractional digits
(amounts are modelled as exact rationals, so `(amount * 100).den = 1`). -/
def claim_amount_check (amount : ℚ) : Bool :=
  decide (0 < amount) && decide ((1/100 : ℚ) ≤ amount) &&
    decide (amount ≤ 1000000) && decide ((amount * 100).den = 1)

/-- The `date_of_service` refinement chain of `claimValidationSchema`
(`src/unnamed/part_000`): `new Date(date)` must parse (not NaN) and
`parsedDate <= now`.  The parse outcome is modelled as an optional
millisecond timestamp, `none` for an unparseable string (which also
covers the empty string rejected by `.min(1)`). -/
def date_of_service_check (parsed : Option ℤ) (now : ℤ) : Bool :=
  match parsed with
  | none => false
  | some d => decide (d ≤ now)

/-- The string values of the `ClaimType` enum, i.e.
`Object.values(ClaimType)`. -/
def claimTypeValues : List String := ["MEDICAL", "DENTAL", "VISION", "PHARMACY"]

/-- The string values of the `ClaimStatus` enum, i.e.
`Object.values(ClaimStatus)`. -/
def claimStatusValues : List String :=
  ["RECEIVED", "OCR_PROCESSING", "PII_MASKED", "DQ_VALIDATED",
   "HUMAN_REVIEW", "CONSENT_VERIFIED", "CLAIM_VALIDATED",
   "PAYER_SUBMITTED", "SETTLED", "REJECTED"]

/-- The `status` field check of `claimFiltersSchema`
(`src/unnamed/part_000`): `z.nativeEnum(ClaimType)` accepts exactly the
values of the `ClaimType` enum. -/
def claimFiltersStatusCheck (v : String) : Bool := decide (v ∈ claimTypeValues)

/-- A character of the regex class `[A-Z0-9]`. -/
def isClaimNumChar (c : Char) : Bool :=
  (decide ((('A' : Char)) ≤ c) && decide (c ≤ (('Z' : Char)))) ||
    (decide ((('0' : Char)) ≤ c) && decide (c ≤ (('9' : Char))))

/-- Function `isValidClaimNumber` from the utils module (`src/unnamed/part_000`):
the regex `^CLM[A-Z0-9]{6,}$`, also used by `claimValidationSchema` for
the `claim_number` field. -/
def isValidClaimNumber (s : String) : Bool :=
  match s.data with
  | 'C' :: 'L' :: 'M' :: rest =>
      decide (6 ≤ rest.length) && rest.all isClaimNumChar
  | _ => false

/-- The decimal digit character for a value below ten. -/
def digitChar (d : Nat) : Char := Char.ofNat (48 + d)

/-- Decimal digit characters of `n`, most significant first, with explicit
fuel so the recursion is structural; any fuel above `n` computes the full
representation.  Models `Number.prototype.toString()` on a natural. -/
def decimalDigitsCore (fuel : Nat) (n : Nat) : List Char :=
  match fuel with
  | 0 => []
  | fuel' + 1 =>
    if n < 10 then [digitChar n]
    else decimalDigitsCore fuel' (n / 10) ++ [digitChar (n % 10)]

/-- JavaScript `n.toString()` for a natural `n`, as a character list. -/
def jsNatToString (n : Nat) : List Char := decimalDigitsCore (n + 1) n

/-- JavaScript `s.slice(-k)` on a character list: the last `min(k, length)` characters. -/
def jsSliceLast (k : Nat) (l : List Char) : List Char := l.drop (l.length - k)

/-- Function `generateClaimNumber` from the utils module (`src/unnamed/part_000`):
`` `CLM${Date.now().toString().slice(-6)}${random}` `` where `random` is
`Math.random().toString(36).substr(2, 4).toUpperCase()` — modelled as a
caller-supplied list of uppercase base-36 digit characters of length at
most four (`Math.random()` returning 0 yields the empty list). -/
def generateClaimNumber (t : Nat) (rand : List Char) : String :=
  String.mk ('C' :: 'L' :: 'M' :: (jsSliceLast 6 (jsNatToString t) ++ rand))

/-- A hexadecimal digit character, either case. -/
def isHexChar (c : Char) : Bool :=
  c.isDigit || (decide ((('a' : Char)) ≤ c) && decide (c ≤ (('f' : Char)))) ||
    (decide ((('A' : Char)) ≤ c) && decide (c ≤ (('F' : Char))))

/-- Split a character list on the hyphen character. -/
def splitOnDash : List Char → List (List Char)
  | [] => [[]]
  | c :: rest =>
    if c = Char.ofNat 45 then [] :: splitOnDash rest
    else
      match splitOnDash rest with
      | [] => [[c]]
      | g :: gs => (c :: g) :: gs

/-- Validator `z.string().uuid()` from zod, used for the `id` field of
`updateClaimSchema` (`src/unnamed/part_000`): hyphen-separated groups of
8-4-4-4-12 hexadecimal digits whose third group starts with a version
digit 1-5, or the all-zero nil UUID. -/
def isUuid (s : String) : Bool :=
  decide ((splitOnDash s.data).map List.length = [8, 4, 4, 4, 12]) &&
  (splitOnDash s.data).all (fun g => g.all isHexChar) &&
  (match splitOnDash s.data with
   | _ :: _ :: (v :: _) :: _ =>
     (decide ((('1' : Char)) ≤ v) && decide (v ≤ (('5' : Char)))) ||
       s.data.all (fun c => decide (c = (('0' : Char))) || decide (c = Char.ofNat 45))
   | _ => false)

/-- The `claim_number` checks of `claimValidationSchema`: `.min(1)` and
the regex `^CLM[A-Z0-9]{6,}$`. -/
def claimNumberCheck (s : String) : Bool :=
  decide (1 ≤ s.length) && isValidClaimNumber s

/-- The `policy_number` checks of `claimValidationSchema`: `.min(1)`,
`.min(5)`, `.max(50)`. -/
def policyNumberCheck (s : String) : Bool :=
  decide (1 ≤ s.length) && decide (5 ≤ s.length) && decide (s.length ≤ 50)

/-- A character of the regex class `[a-zA-Z\s\-'\.]` for patient names. -/
def patientNameChar (c : Char) : Bool :=
  c.isAlpha || c.isWhitespace || decide (c = (('-' : Char))) ||
    decide (c = Char.ofNat 39) || decide (c = (('.' : Char)))

/-- The `patient_name` checks of `claimValidationSchema`: `.min(1)`,
`.min(2)`, `.max(100)` and the name-character regex. -/
def patientNameCheck (s : String) : Bool :=
  decide (1 ≤ s.length) && decide (2 ≤ s.length) && decide (s.length ≤ 100) &&
    s.data.all patientNameChar

/-- The `provider_name` check of `claimValidationSchema`: `.max(200)`. -/
def providerNameCheck (s : String) : Bool := decide (s.length ≤ 200)

/-- The `diagnosis_codes` / `procedure_codes` checks of
`claimValidationSchema`: an array of at most 10 nonempty strings. -/
def codesCheck (l : List String) : Bool :=
  decide (l.length ≤ 10) && l.all (fun c => decide (1 ≤ c.length))

/-- The full `date_of_service` field check of `claimValidationSchema`:
`.min(1)` plus the parse/not-in-the-future refinements, against a given
parse oracle and clock time. -/
def dateOfServiceFieldCheck (parse : String → Option ℤ) (now : ℤ)
    (s : String) : Bool :=
  decide (1 ≤ s.length) && date_of_service_check (parse s) now

/-- The stored claim record, restricted to the business fields covered by
`updateClaimSchema` (`Claim` in `src/frontend/src/types/index.ts`). -/
structure ClaimRecord where
  claim_number : String
  policy_number : String
  patient_name : String
  date_of_service : String
  claim_amount : ℚ
  claim_type : ClaimType
  provider_name : Option String
  diagnosis_codes : Option (List String)
  procedure_codes : Option (List String)
  deriving DecidableEq, Repr

/-- An update payload as validated by `updateClaimSchema`
(`claimValidationSchema.partial().extend` with a required uuid `id`):
every business field optional (`ClaimUpdate` in
`src/frontend/src/types/index.ts`). -/
structure ClaimUpdatePayload where
  id : String
  claim_number : Option String
  policy_number : Option String
  patient_name : Option String
  date_of_service : Option String
  claim_amount : Option ℚ
  claim_type : Option ClaimType
  provider_name : Option String
  diagnosis_codes : Option (List String)
  procedure_codes : Option (List String)
  deriving DecidableEq, Repr

/-- An optional field passes when absent, and is validated when present —
the semantics of `.partial()` on a zod object schema. -/
def optCheck {α : Type} (f : α → Bool) : Option α → Bool
  | none => true
  | some x => f x

/-- Schema `updateClaimSchema` from `src/unnamed/part_000`:
`claimValidationSchema.partial().extend` with `id: z.string().uuid()`.
A present `claim_type` always passes `z.nativeEnum(ClaimType)` since the
payload field is typed by the enum. -/
def updateClaimValid (parse : String → Option ℤ) (now : ℤ)
    (u : ClaimUpdatePayload) : Bool :=
  isUuid u.id &&
  optCheck claimNumberCheck u.claim_number &&
  optCheck policyNumberCheck u.policy_number &&
  optCheck patientNameCheck u.patient_name &&
  optCheck (dateOfServiceFieldCheck parse now) u.date_of_service &&
  optCheck claim_amount_check u.claim_amount &&
  optCheck providerNameCheck u.provider_name &&
  optCheck codesCheck u.diagnosis_codes &&
  optCheck codesCheck u.procedure_codes

/-- A required stored field after an update: the payload value when
present, the stored value otherwise. -/
def updField {α : Type} (newVal : Option α) (oldVal : α) : α :=
  newVal.getD oldVal

/-- An optional stored field after an update. -/
def updOptField {α : Type} (newVal : Option α) (oldVal : Option α) :
    Option α :=
  match newVal with
  | some v => some v
  | none => oldVal

/-- Modelled from the spec: the CRUD surface operation
`update(partial fields)` (section 6) — fields present in the validated
payload replace the stored ones.  The backend that applies the update is
not under `src/`. -/
def applyUpdate (c : ClaimRecord) (u : ClaimUpdatePayload) : ClaimRecord :=
  ⟨updField u.claim_number c.claim_number,
   updField u.policy_number c.policy_number,
   updField u.patient_name c.patient_name,
   updField u.date_of_service c.date_of_service,
   updField u.claim_amount c.claim_amount,
   updField u.claim_type c.claim_type,
   updOptField u.provider_name c.provider_name,
   updOptField u.diagnosis_codes c.diagnosis_codes,
   updOptField u.procedure_codes c.procedure_codes⟩

/-- A concrete stored claim used to exercise `applyUpdate`. -/
def storedClaimC4 : ClaimRecord :=
  ⟨"CLMAAAAAA", "POL12345", "John Doe", "2024-01-01", 100,
    ClaimType.MEDICAL, none, none, none⟩

/-- A concrete update payload carrying a changed claim number and a valid
uuid `id`; `updateClaimSchema` accepts it. -/
def changeNumberPayloadC4 : ClaimUpdatePayload :=
  ⟨"123e4567-e89b-12d3-a456-426614174000", some ("CLMZZZZZZ"),
    none, none, none, none, none, none, none, none⟩

/-- A concrete update payload that omits `claim_number`. -/
def omitNumberPayloadC4 : ClaimUpdatePayload :=
  ⟨"123e4567-e89b-12d3-a456-426614174000", none,
    none, none, none, none, none, none, none, none⟩

end Fusefy

namespace Fusefy

/-- C1: out of `DQ_VALIDATED`, a claim is routed to `HUMAN_REVIEW` iff its
overall confidence is strictly below the review threshold or a mandatory
review rule fires, otherwise to `CONSENT_VERIFIED`; with the default
threshold 0.80, confidence 0.79 routes to review and 0.80 exactly to
`CONSENT_VERIFIED`. -/
theorem dq_validated_confidence_routing :
    (∀ (t conf : ℚ) (mand : Bool),
      (advance t ClaimStatus.DQ_VALIDATED (ClaimEvent.RouteOnConfidence conf mand)
          = Except.ok ClaimStatus.HUMAN_REVIEW
        ↔ (conf < t ∨ mand = true)) ∧
      (advance t ClaimStatus.DQ_VALIDATED (ClaimEvent.RouteOnConfidence conf mand)
          = Except.ok ClaimStatus.CONSENT_VERIFIED
        ↔ ¬ (conf < t ∨ mand = true))) ∧
    advance (80/100) ClaimStatus.DQ_VALIDATED
        (ClaimEvent.RouteOnConfidence (79/100) false)
      = Except.ok ClaimStatus.HUMAN_REVIEW ∧
    advance (80/100) ClaimStatus.DQ_VALIDATED
        (ClaimEvent.RouteOnConfidence (80/100) false)
      = Except.ok ClaimStatus.CONSENT_VERIFIED := by
  refine ⟨fun t conf mand => ?_, ?_, ?_⟩
  · unfold advance routeFromDqValidated
    by_cases h : conf < t ∨ mand = true <;> simp [h]
  · unfold advance routeFromDqValidated
    norm_num
  · unfold advance routeFromDqValidated
    norm_num


/-- Behaviour of the retry loop when every attempt in the window fails with
a non-client (retryable) error: all attempts are consumed, the last error
is surfaced, and a backoff wait is performed between consecutive attempts. -/
theorem backoff_wait_list (delay attempt fuel' : Nat) :
    backoffDelay delay attempt ::
        (List.range fuel').map (fun k => backoffDelay delay (attempt + 1 + k)) =
      (List.range (fuel' + 1)).map (fun k => backoffDelay delay (attempt + k)) := by
  rw [List.range_succ_eq_map, List.map_cons, List.map_map, Nat.add_zero]
  congr 1
  apply List.map_congr_left
  intro k _
  simp only [Function.comp_apply, Nat.succ_eq_add_one]
  congr 1
  omega

theorem retryAux_all_transient {T : Type} (f : Nat → Except JsError T)
    (delay : Nat) :
    ∀ (fuel attempt : Nat),
    (∀ i, attempt ≤ i → i ≤ attempt + fuel →
      ∃ e, f i = Except.error e ∧ isClientError e = false) →
    retryAux f delay attempt fuel =
      (f (attempt + fuel), fuel + 1,
        (List.range fuel).map (fun k => backoffDelay delay (attempt + k))) := by
  intro fuel
  induction fuel with
  | zero =>
    intro attempt h
    obtain ⟨e, he, hce⟩ := h attempt le_rfl (by omega)
    simp [retryAux, he]
  | succ fuel' ih =>
    intro attempt h
    obtain ⟨e, he, hce⟩ := h attempt le_rfl (by omega)
    have hrec := ih (attempt + 1) (fun i h1 h2 => h i (by omega) (by omega))
    have harg : attempt + 1 + fuel' = attempt + (fuel' + 1) := by omega
    simp only [retryAux, he, hce, Bool.false_eq_true, if_false]
    rw [hrec]
    simp only [Prod.mk.injEq]
    refine ⟨by rw [harg], trivial, ?_⟩
    exact backoff_wait_list delay attempt fuel'

/-- C5: when the request function fails with a 5xx `AxiosError` on every
attempt, `retryRequest` invokes it exactly `maxRetries` times, waits
`delay * 2 ^ (attempt - 1)` between consecutive attempts, and surfaces the
error of the last attempt. -/
theorem retryRequest_transient_ceiling {T : Type} (f : Nat → Except JsError T)
    (maxRetries delay : Nat)
    (hmax : 1 ≤ maxRetries)
    (h5xx : ∀ i, 1 ≤ i → i ≤ maxRetries →
      ∃ s, f i = Except.error (JsError.axios (some s)) ∧ 500 ≤ s) :
    retryRequest f maxRetries delay =
      (f maxRetries, maxRetries,
        (List.range (maxRetries - 1)).map (fun k => delay * 2 ^ k)) := by
  have h : ∀ i, 1 ≤ i → i ≤ 1 + (maxRetries - 1) →
      ∃ e, f i = Except.error e ∧ isClientError e = false := by
    intro i h1 h2
    obtain ⟨s, hs, h500⟩ := h5xx i h1 (by omega)
    exact ⟨JsError.axios (some s), hs, by simp [isClientError]; omega⟩
  have hmain := retryAux_all_transient f delay (maxRetries - 1) 1 h
  unfold retryRequest
  rw [hmain]
  simp only [Prod.mk.injEq]
  refine ⟨by congr 1; omega, by omega, ?_⟩
  apply List.map_congr_left
  intro k _
  have hk : 1 + k - 1 = k := by omega
  rw [backoffDelay, hk]

/-- C5 witness: with `maxRetries = 3`, `delay = 1000` and a request that
always fails with status 500, the request is invoked exactly 3 times, the
waits are 1000 then 2000, and the final status-500 error is surfaced. -/
theorem retryRequest_transient_ceiling_witness :
    retryRequest (fun _ => (Except.error (JsError.axios (some 500)) : Except JsError Nat))
        3 1000 =
      (Except.error (JsError.axios (some 500)), 3, [1000, 2000]) := by
  have := retryRequest_transient_ceiling
    (fun _ => (Except.error (JsError.axios (some 500)) : Except JsError Nat))
    3 1000 (by omega)
    (fun i _ _ => ⟨500, rfl, le_rfl⟩)
  rw [this]
  rfl

/-- C6: a 4xx `AxiosError` on the first attempt is never retried — the
request function is invoked exactly once, no backoff wait happens, and the
error is propagated, whatever the configured `maxRetries`. -/
theorem retryRequest_client_error_no_retry {T : Type}
    (f : Nat → Except JsError T) (maxRetries delay s : Nat)
    (hfirst : f 1 = Except.error (JsError.axios (some s)))
    (h400 : 400 ≤ s) (h500 : s < 500) :
    retryRequest f maxRetries delay =
      (Except.error (JsError.axios (some s)), 1, []) := by
  have hce : isClientError (JsError.axios (some s)) = true := by
    simp [isClientError]
    omega
  cases hm : maxRetries - 1 with
  | zero => simp [retryRequest, hm, retryAux, hfirst]
  | succ n => simp [retryRequest, hm, retryAux, hfirst, hce]

/-- C6 witness: a request failing with status 404 on its first attempt is
invoked once and its error surfaced, under `maxRetries = 3`. -/
theorem retryRequest_client_error_no_retry_witness :
    retryRequest (fun _ => (Except.error (JsError.axios (some 404)) : Except JsError Nat))
        3 1000 =
      (Except.error (JsError.axios (some 404)), 1, []) :=
  retryRequest_client_error_no_retry
    (fun _ => (Except.error (JsError.axios (some 404)) : Except JsError Nat))
    3 1000 404 rfl (by omega) (by omega)

/-- C2: `SETTLED` and `REJECTED` are terminal — every event applied to a
claim in either state fails with `InvalidTransition` and leaves the status
unchanged. -/
theorem terminal_states_reject_all_events :
    ∀ (t : ℚ) (e : ClaimEvent),
      advance t ClaimStatus.SETTLED e = Except.error AdvanceError.InvalidTransition ∧
      advance t ClaimStatus.REJECTED e = Except.error AdvanceError.InvalidTransition ∧
      applyEvent t ClaimStatus.SETTLED e = ClaimStatus.SETTLED ∧
      applyEvent t ClaimStatus.REJECTED e = ClaimStatus.REJECTED := by
  intro t e
  cases e <;> simp [advance, applyEvent]

/-- C3 counterexample: 1000000.01 dollars is positive and has exactly 2
fractional digits, yet `claim_amount_check` rejects it (the `.max(1000000)`
rule), so acceptance is not equivalent to being positive with at most 2
decimal places. -/
theorem claim_amount_cap_cex :
    claim_amount_check (100000001/100) = false ∧
    (0 : ℚ) < 100000001/100 ∧
    (((100000001 : ℚ)/100) * 100).den = 1 := by
  refine ⟨?_, by norm_num, by norm_num⟩
  unfold claim_amount_check
  norm_num

/-- C3 (amended): `claim_amount_check` accepts an amount iff it is
positive, at most 1,000,000, and representable with at most 2 fractional
digits; the `.min(0.01)` rule is implied by positivity together with the
2-decimal-place constraint. -/
theorem claim_amount_check_iff (a : ℚ) :
    claim_amount_check a = true ↔
      (0 < a ∧ a ≤ 1000000 ∧ (a * 100).den = 1) := by
  unfold claim_amount_check
  simp only [Bool.and_eq_true, decide_eq_true_eq]
  constructor
  · rintro ⟨⟨⟨h1, _⟩, h3⟩, h4⟩
    exact ⟨h1, h3, h4⟩
  · rintro ⟨h1, h3, h4⟩
    refine ⟨⟨⟨h1, ?_⟩, h3⟩, h4⟩
    have hint : (((a * 100).num : ℚ)) = a * 100 :=
      (Rat.den_eq_one_iff (a * 100)).mp h4
    have hpos : 0 < a * 100 := by positivity
    have hnum : (1 : ℤ) ≤ (a * 100).num := Rat.num_pos.mpr hpos
    have h1le : (1 : ℚ) ≤ a * 100 := by
      calc (1 : ℚ) ≤ (((a * 100).num : ℚ)) := by exact_mod_cast hnum
        _ = a * 100 := hint
    linarith

/-- C7 counterexample: the display helpers pass an out-of-range confidence
through unchanged rather than clamping it — confidence 1.5 is rendered as
150% (a clamp into [0,1] would render at most 100%) and is coloured as a
valid high confidence. -/
theorem confidence_not_clamped_cex :
    formatConfidence (3/2) = 150 ∧
    ¬ formatConfidence (3/2) ≤ 100 ∧
    getConfidenceColor (3/2) = getConfidenceColor 1 := by
  have h : formatConfidence (3/2) = 150 := by
    unfold formatConfidence jsMathRound
    norm_num
  refine ⟨h, by rw [h]; norm_num, ?_⟩
  unfold getConfidenceColor
  norm_num

/-- C7 (amended): the confidence display helpers do not clamp; for a
confidence within [0,1] the rendered percentage is within [0,100], but an
out-of-range input propagates to an out-of-range percentage. -/
theorem formatConfidence_in_range (c : ℚ) (h0 : 0 ≤ c) (h1 : c ≤ 1) :
    0 ≤ formatConfidence c ∧ formatConfidence c ≤ 100 := by
  unfold formatConfidence jsMathRound
  constructor
  · refine Int.le_floor.mpr ?_
    push_cast
    nlinarith
  · have hlt : (c * 100 + 1/2 : ℚ) < 101 := by nlinarith
    have := Int.floor_lt.mpr (show (c * 100 + 1/2 : ℚ) < ((101 : ℤ) : ℚ) by push_cast; linarith)
    omega

/-- C7 witness: confidence 0.75 is in range and renders as a percentage
within [0,100]. -/
theorem formatConfidence_in_range_witness :
    (0 : ℚ) ≤ 3/4 ∧ (3/4 : ℚ) ≤ 1 ∧
    (0 ≤ formatConfidence (3/4) ∧ formatConfidence (3/4) ≤ 100) :=
  ⟨by norm_num, by norm_num,
    formatConfidence_in_range (3/4) (by norm_num) (by norm_num)⟩

/-- C8: the `status` filter of `claimFiltersSchema` is checked against the
`ClaimType` enum — it accepts exactly MEDICAL, DENTAL, VISION, PHARMACY,
and rejects every `ClaimStatus` lifecycle value. -/
theorem filters_status_uses_claim_type_enum :
    (∀ v : String, claimFiltersStatusCheck v = true ↔
      (v = "MEDICAL" ∨ v = "DENTAL" ∨ v = "VISION" ∨ v = "PHARMACY")) ∧
    claimStatusValues.all (fun s => ! claimFiltersStatusCheck s) = true := by
  constructor
  · intro v
    simp [claimFiltersStatusCheck, claimTypeValues]
  · decide

/-- C4 counterexample: `updateClaimSchema` accepts a payload that carries
a new `claim_number`, and applying that validated payload changes the
stored claim number — immutability is not enforced by the update schema
(only the edit form marks the field read-only). -/
theorem updateClaimSchema_accepts_claim_number_change :
    updateClaimValid (fun _ => none) 0 changeNumberPayloadC4 = true ∧
    changeNumberPayloadC4.claim_number = some ("CLMZZZZZZ") ∧
    (applyUpdate storedClaimC4 changeNumberPayloadC4).claim_number ≠
      storedClaimC4.claim_number := by
  refine ⟨by decide, rfl, by decide⟩

/-- C4 (amended): an update payload validated by `updateClaimSchema` that
omits `claim_number` leaves the stored claim number unchanged; the schema
itself, however, accepts payloads that change it. -/
theorem claim_number_preserved_when_omitted (parse : String → Option ℤ)
    (now : ℤ) (c : ClaimRecord) (u : ClaimUpdatePayload)
    (hvalid : updateClaimValid parse now u = true)
    (hnone : u.claim_number = none) :
    (applyUpdate c u).claim_number = c.claim_number := by
  unfold applyUpdate
  rw [hnone]
  rfl

/-- C4 witness: a concrete validated payload omitting `claim_number`
preserves the stored claim number. -/
theorem claim_number_preserved_when_omitted_witness :
    updateClaimValid (fun _ => none) 0 omitNumberPayloadC4 = true ∧
    omitNumberPayloadC4.claim_number = none ∧
    (applyUpdate storedClaimC4 omitNumberPayloadC4).claim_number =
      storedClaimC4.claim_number :=
  ⟨by decide, rfl,
    claim_number_preserved_when_omitted (fun _ => none) 0 storedClaimC4
      omitNumberPayloadC4 (by decide) rfl⟩

theorem digitChar_is_claim_char (d : Nat) (hd : d < 10) :
    isClaimNumChar (digitChar d) = true := by
  interval_cases d <;> decide

theorem decimalDigitsCore_all_claim_chars (fuel : Nat) :
    ∀ n, (decimalDigitsCore fuel n).all isClaimNumChar = true := by
  induction fuel with
  | zero => intro n; rfl
  | succ fuel' ih =>
    intro n
    unfold decimalDigitsCore
    by_cases h : n < 10
    · simp [h, digitChar_is_claim_char n h]
    · simp only [h, if_false, List.all_append, Bool.and_eq_true]
      exact ⟨ih (n / 10), by
        simp [digitChar_is_claim_char (n % 10) (Nat.mod_lt n (by omega))]⟩

theorem decimalDigitsCore_length (fuel : Nat) :
    ∀ n k, n < fuel → 10 ^ k ≤ n →
      k + 1 ≤ (decimalDigitsCore fuel n).length := by
  induction fuel with
  | zero => intro n k h _; omega
  | succ fuel' ih =>
    intro n k hfuel hk
    unfold decimalDigitsCore
    by_cases h : n < 10
    · cases k with
      | zero => simp [h]
      | succ k' =>
        exfalso
        have h10 : 10 ≤ 10 ^ (k' + 1) := Nat.le_self_pow (Nat.succ_ne_zero k') 10
        omega
    · simp only [h, if_false, List.length_append, List.length_singleton]
      cases k with
      | zero => omega
      | succ k' =>
        have hdivlt : n / 10 < fuel' := by
          have := Nat.div_lt_self (show 0 < n by omega) (show 1 < 10 by omega)
          omega
        have hdivge : 10 ^ k' ≤ n / 10 := by
          rw [Nat.le_div_iff_mul_le (by omega)]
          calc 10 ^ k' * 10 = 10 ^ (k' + 1) := (pow_succ 10 k').symm
            _ ≤ n := hk
        have := ih (n / 10) k' hdivlt hdivge
        omega

/-- C9 counterexample: with timestamp 0 (decimal representation shorter
than six characters) and an empty random suffix (the outcome of
`Math.random()` returning 0), the generated claim number is CLM0, which
fails `isValidClaimNumber` — so the generated number is not valid for
every timestamp and every random outcome. -/
theorem generateClaimNumber_small_timestamp_cex :
    isValidClaimNumber (generateClaimNumber 0 []) = false := by decide

/-- C9 (amended): for every timestamp of at least six decimal digits
(`Date.now() >= 100000`, true from 1970-01-01T00:01:40Z on) and every
random suffix drawn from the characters A-Z and 0-9, the generated claim
number satisfies `isValidClaimNumber`. -/
theorem generateClaimNumber_valid (t : Nat) (rand : List Char)
    (ht : 100000 ≤ t) (hrand : rand.all isClaimNumChar = true) :
    isValidClaimNumber (generateClaimNumber t rand) = true := by
  unfold generateClaimNumber isValidClaimNumber
  show (decide (6 ≤ (jsSliceLast 6 (jsNatToString t) ++ rand).length) &&
    (jsSliceLast 6 (jsNatToString t) ++ rand).all isClaimNumChar) = true
  have hlen : 6 ≤ (jsNatToString t).length := by
    unfold jsNatToString
    have h5 : 10 ^ 5 ≤ t := by norm_num; omega
    have := decimalDigitsCore_length (t + 1) t 5 (by omega) h5
    omega
  have hslice : (jsSliceLast 6 (jsNatToString t)).length = 6 := by
    unfold jsSliceLast
    rw [List.length_drop]
    omega
  have hall : (jsSliceLast 6 (jsNatToString t)).all isClaimNumChar = true := by
    rw [List.all_eq_true]
    intro x hx
    have hx2 : x ∈ jsNatToString t := List.drop_subset _ _ hx
    have := decimalDigitsCore_all_claim_chars (t + 1) t
    rw [List.all_eq_true] at this
    exact this x hx2
  rw [Bool.and_eq_true, List.all_append, Bool.and_eq_true]
  refine ⟨?_, hall, hrand⟩
  rw [List.length_append, hslice]
  simp

/-- C9 witness: timestamp 123456 with random suffix AB12 generates a
valid claim number. -/
theorem generateClaimNumber_valid_witness :
    100000 ≤ 123456 ∧
    ([(('A' : Char)), 'B', '1', '2'].all isClaimNumChar = true) ∧
    isValidClaimNumber (generateClaimNumber 123456 ['A', 'B', '1', '2']) = true :=
  ⟨by omega, by decide,
    generateClaimNumber_valid 123456 ['A', 'B', '1', '2'] (by omega) (by decide)⟩

/-- C10: the `date_of_service` checks accept an input iff it parses and
the parsed instant is at or before the clock time at validation; a
strictly future date or an unparseable string is rejected. -/
theorem date_of_service_check_iff (parsed : Option ℤ) (now : ℤ) :
    date_of_service_check parsed now = true ↔
      ∃ d, parsed = some d ∧ d ≤ now := by
  cases parsed <;> simp [date_of_service_check]

end Fusefy
